import Mathlib

/-!
# gomdb: the request / decode pipeline of the OMDB client

Shallow embedding of `src/gomdb.go`.

* Go strings are Lean `String`s, Go `int` is `Int` (no arithmetic is done on it).
* A Go pointer is an `Option` (`none` is `nil`); a Go `error` is an
  `Option GoError` (`none` is the nil error).
* A call returns an `Outcome`: either the pair of Go return values or a
  run-time panic, together with the trace of the effects it performed
  (HTTP GET, JSON decode of a body, close of a body), in order.
* The HTTP transport (`http.Get`) and the JSON decoder
  (`json.NewDecoder(body).Decode`) are library code: they are fields of `Env`.
-/

namespace Gomdb

/-! ## Constants (lines 12-20) -/

def baseURL : String := "http://www.omdbapi.com/?"
def plot : String := "full"
def tomatoes : String := "true"

def MovieSearch : String := "movie"
def SeriesSearch : String := "series"
def EpisodeSearch : String := "episode"

/-! ## Data model (lines 22-80) -/

/-- QueryData is the type to create the search query. -/
structure QueryData where
  Title : String
  Year : String
  ImdbId : String
  SearchType : String
  Page : String
deriving DecidableEq

/-- SearchResult is the type for the search results. -/
structure SearchResult where
  Title : String
  Year : String
  ImdbID : String
  Type_ : String
deriving DecidableEq

/-- SearchResponse is the struct of the response in a search. -/
structure SearchResponse where
  Search : List SearchResult
  Response : String
  Error : String
  NumPages : String
deriving DecidableEq

structure Ratings where
  Source : String
  Value : String
deriving DecidableEq

/-- MovieResult is the result struct of a specific movie search. -/
structure MovieResult where
  Title : String
  Year : String
  Rated : String
  Released : String
  Runtime : String
  Genre : String
  Director : String
  Writer : String
  Actors : String
  Plot : String
  Language : String
  Country : String
  Awards : String
  Poster : String
  Metascore : String
  ImdbRating : String
  ImdbVotes : String
  ImdbID : String
  Ratings : List Ratings
  Type_ : String
  DVD : String
  BoxOffice : String
  Production : String
  Website : String
  Response : String
  Error : String

/-! ## Go run-time notions -/

/-- A non-nil Go `error`, identified by the text its `Error()` method returns. -/
structure GoError where
  text : String
deriving DecidableEq

/-- Go `errors.New`. -/
def errors.New (text : String) : GoError := ⟨text⟩

/-- The run-time panics the package can raise. -/
inductive Panic where
  | nilDereference
  | indexOutOfRange
deriving DecidableEq

/-- Result of a Go function returning `(*α, error)`: the two values, or a panic. -/
inductive Outcome (α : Type) where
  | ret (val : Option α) (err : Option GoError)
  | panic (p : Panic)

/-- The body of an HTTP response (`io.ReadCloser`), given by the content it delivers. -/
structure ReadCloser where
  content : String
deriving DecidableEq

/-- The fields of `http.Response` the package reads. -/
structure http.Response where
  StatusCode : Int
  Body : ReadCloser
deriving DecidableEq

/-- Observable effects, in the order they happen. -/
inductive Event where
  | get (target : String)
  | decode (body : ReadCloser)
  | close (body : ReadCloser)
deriving DecidableEq

/-- A finished call: what it returned and what it did. -/
structure Run (α : Type) where
  outcome : Outcome α
  trace : List Event

/-- The library collaborators: `http.Get` (returns `(*Response, error)`) and
the JSON decoder run on a fresh `SearchResponse` / `MovieResult`. -/
structure Env where
  httpGet : String → Option http.Response × Option GoError
  decodeSearch : ReadCloser → Except GoError SearchResponse
  decodeMovie : ReadCloser → Except GoError MovieResult

/-! ## fmt.Sprintf / fmt.Errorf

The verbs `%s`, `%d`, `%v` and `%%` without flags, which is what the package
uses; an operand of the wrong type, a missing operand and surplus operands
are rendered the way `fmt` reports them. -/

/-- An operand of a formatting call. -/
inductive fmt.Arg where
  | str (s : String)
  | int (n : Int)

def fmt.Arg.typeName : fmt.Arg → String
  | .str _ => "string"
  | .int _ => "int"

def fmt.Arg.plain : fmt.Arg → String
  | .str s => s
  | .int n => toString n

/-- One verb applied to one operand. -/
def fmt.formatVerb (verb : Char) (a : fmt.Arg) : List Char :=
  if verb = 'v' then a.plain.data
  else match a with
    | .str s =>
      if verb = 's' then s.data
      else "%!".data ++ [verb] ++ "(string=".data ++ s.data ++ ")".data
    | .int n =>
      if verb = 'd' then (toString n).data
      else "%!".data ++ [verb] ++ "(int=".data ++ (toString n).data ++ ")".data

/-- Surplus operands: `type=value, type=value`. -/
def fmt.extraArgs : List fmt.Arg → List Char
  | [] => []
  | [a] => a.typeName.data ++ "=".data ++ a.plain.data
  | a :: b :: rest =>
    a.typeName.data ++ "=".data ++ a.plain.data ++ ", ".data ++ fmt.extraArgs (b :: rest)

def fmt.sprintfAux : List Char → List fmt.Arg → List Char
  | [], [] => []
  | [], a :: rest => "%!(EXTRA ".data ++ fmt.extraArgs (a :: rest) ++ ")".data
  | c :: cs, args =>
    if c = '%' then
      match cs, args with
      | [], args => "%!(NOVERB)".data ++ fmt.sprintfAux [] args
      | v :: cs', [] =>
        if v = '%' then '%' :: fmt.sprintfAux cs' []
        else "%!".data ++ [v] ++ "(MISSING)".data ++ fmt.sprintfAux cs' []
      | v :: cs', a :: rest =>
        if v = '%' then '%' :: fmt.sprintfAux cs' (a :: rest)
        else fmt.formatVerb v a ++ fmt.sprintfAux cs' rest
    else c :: fmt.sprintfAux cs args

/-- Go `fmt.Sprintf`. -/
def fmt.Sprintf (format : String) (a : List fmt.Arg) : String :=
  String.mk (fmt.sprintfAux format.data a)

/-- Go `fmt.Errorf` (no `%w` verb: the result is `errors.New` of the text). -/
def fmt.Errorf (format : String) (a : List fmt.Arg) : GoError :=
  errors.New (fmt.Sprintf format a)

/-! ## net/url: Values, QueryEscape, Encode, URL.String -/

/-- Go `url.Values` (a `map[string][]string`): one entry per key, the key's
values in insertion order. -/
abbrev url.Values := List (String × List String)

/-- Go `Values.Add`: `v[key] = append(v[key], value)`. -/
def url.Values.Add (v : url.Values) (key value : String) : url.Values :=
  match v with
  | [] => [(key, [value])]
  | (k, vs) :: rest =>
    if k = key then (k, vs ++ [value]) :: rest
    else (k, vs) :: url.Values.Add rest key value

/-- The values stored under a key (`v[key]`). -/
def url.Values.lookup (v : url.Values) (key : String) : List String :=
  match v with
  | [] => []
  | (k, vs) :: rest => if k = key then vs else url.Values.lookup rest key

/-- Go `shouldEscape(c, encodeQueryComponent)` on a byte: everything but the
unreserved characters (letters, digits, `-`, `_`, `.`, `~`) is escaped. -/
def url.shouldEscape (c : Nat) : Bool :=
  if (97 ≤ c ∧ c ≤ 122) ∨ (65 ≤ c ∧ c ≤ 90) ∨ (48 ≤ c ∧ c ≤ 57) then false
  else if c = 45 ∨ c = 95 ∨ c = 46 ∨ c = 126 then false
  else true

def url.upperhex : List Char := "0123456789ABCDEF".data

/-- One byte of `escape(s, encodeQueryComponent)`. -/
def url.escapeByte (c : Nat) : List Char :=
  if c = 32 then ['+']
  else if url.shouldEscape c then
    ['%', url.upperhex.getD (c / 16) '0', url.upperhex.getD (c % 16) '0']
  else [Char.ofNat c]

/-- The bytes of a Go string (UTF-8). -/
def stringBytes (s : String) : List Nat :=
  (s.data.map fun c => (String.utf8EncodeChar c).map UInt8.toNat).flatten

/-- Go `url.QueryEscape`. -/
def url.QueryEscape (s : String) : String :=
  String.mk ((stringBytes s).map url.escapeByte).flatten

/-- Go `Values.Encode`: `key=value` pairs joined by `&`, sorted by key. -/
def url.Values.Encode (v : url.Values) : String :=
  let keys := (v.map Prod.fst).insertionSort (fun a b => stringBytes a ≤ stringBytes b)
  let pairs := (keys.map fun k =>
    (url.Values.lookup v k).map fun x => url.QueryEscape k ++ "=" ++ url.QueryEscape x).flatten
  "&".intercalate pairs

/-- The fields of Go `url.URL` that `requestAPI` touches. -/
structure url.URL where
  Scheme : String
  Host : String
  Path : String
  ForceQuery : Bool
  RawQuery : String
deriving DecidableEq

/-- What `url.Parse(baseURL)` returns for the constant `baseURL`
(`http://www.omdbapi.com/?`); its error is nil. -/
def parsedBaseURL : url.URL :=
  { Scheme := "http", Host := "www.omdbapi.com", Path := "/", ForceQuery := true, RawQuery := "" }

/-- Go `URL.String` for a URL without user info, fragment or opaque part and
with a path that needs no escaping. -/
def url.URL.String (u : url.URL) :=
  (if u.Scheme ≠ "" then u.Scheme ++ ":" else "") ++
  (if u.Scheme ≠ "" ∨ u.Host ≠ "" then
    (if u.Host ≠ "" ∨ u.Path ≠ "" then "//" else "") ++ u.Host else "") ++
  u.Path ++
  (if u.ForceQuery = true ∨ u.RawQuery ≠ "" then "?" ++ u.RawQuery else "")

/-! ## The package's functions (lines 82-206) -/

/-- Lines 196-201. -/
def checkErr (status : Int) : Option GoError :=
  if status ≠ 200 then
    some (fmt.Errorf "Status Code %d received from IMDB" [.int status])
  else none

/-- Lines 159-166 of `requestAPI`, "Checking for invalid category":
`len(params) > 1 && params[2] != ""`, then the three comparisons. The result
is the error to return (if any), or the panic of an index out of range. -/
def checkCategory (params : List String) : Except Panic (Option GoError) :=
  if params.length > 1 then
    match params[2]? with
    | none => .error .indexOutOfRange
    | some p2 =>
      if p2 ≠ "" then
        if p2 ≠ MovieSearch ∧ p2 ≠ SeriesSearch ∧ p2 ≠ EpisodeSearch then
          .ok (some (errors.New ("Invalid search category- " ++ p2)))
        else .ok none
      else .ok none
  else .ok none

/-- Lines 168-185 of `requestAPI`: the `switch apiCategory` filling `parameters`. -/
def buildParameters (apiCategory : String) (params : List String) : Except Panic url.Values :=
  let parameters : url.Values := []
  if apiCategory = "search" then
    match params[0]?, params[1]?, params[2]?, params[3]? with
    | some p0, some p1, some p2, some p3 =>
      let parameters := url.Values.Add parameters "s" p0
      let parameters := url.Values.Add parameters "y" p1
      let parameters := url.Values.Add parameters "type" p2
      let parameters := url.Values.Add parameters "page" p3
      .ok parameters
    | _, _, _, _ => .error .indexOutOfRange
  else if apiCategory = "title" then
    match params[0]?, params[1]?, params[2]? with
    | some p0, some p1, some p2 =>
      let parameters := url.Values.Add parameters "t" p0
      let parameters := url.Values.Add parameters "y" p1
      let parameters := url.Values.Add parameters "type" p2
      let parameters := url.Values.Add parameters "plot" plot
      let parameters := url.Values.Add parameters "tomatoes" tomatoes
      .ok parameters
    | _, _, _ => .error .indexOutOfRange
  else if apiCategory = "id" then
    match params[0]? with
    | some p0 =>
      let parameters := url.Values.Add parameters "i" p0
      let parameters := url.Values.Add parameters "plot" plot
      let parameters := url.Values.Add parameters "tomatoes" tomatoes
      .ok parameters
    | none => .error .indexOutOfRange
  else .ok parameters

/-- The string handed to `http.Get` for a given parameter set (lines 154, 167, 187-188). -/
def requestTarget (parameters : url.Values) : String :=
  let URL := parsedBaseURL
  let URL := { URL with Path := URL.Path ++ "/" }
  let URL := { URL with RawQuery := url.Values.Encode parameters }
  url.URL.String URL

/-- Lines 152-194. `url.Parse(baseURL)` (lines 153-157) cannot fail on the
constant, see `parsedBaseURL`. `http.Get` returns `(res, err)` (line 188);
line 189 overwrites `err` with `checkErr(res.StatusCode)` without looking at
it, and reading `res.StatusCode` dereferences `res`. On a non-200 status the
function returns `nil, err` (lines 190-192) and drops `res`. -/
def requestAPI (env : Env) (apiCategory : String) (params : List String) : Run http.Response :=
  match checkCategory params with
  | .error p => ⟨.panic p, []⟩
  | .ok (some err) => ⟨.ret none (some err), []⟩
  | .ok none =>
    match buildParameters apiCategory params with
    | .error p => ⟨.panic p, []⟩
    | .ok parameters =>
      let target := requestTarget parameters
      match (env.httpGet target).1 with
      | none => ⟨.panic .nilDereference, [.get target]⟩
      | some res =>
        match checkErr res.StatusCode with
        | some err => ⟨.ret none (some err), [.get target]⟩
        | none => ⟨.ret (some res) none, [.get target]⟩

/-- Lines 84-106. `query` is a pointer. The deferred `resp.Body.Close()` is
registered only after `requestAPI` has returned without error, and runs when
`Search` returns, that is after the decode. -/
def Search (env : Env) (query : Option QueryData) : Run SearchResponse :=
  match query with
  | none => ⟨.panic .nilDereference, []⟩
  | some q =>
    let call := requestAPI env "search" [q.Title, q.Year, q.SearchType, q.Page]
    match call.outcome with
    | .panic p => ⟨.panic p, call.trace⟩
    | .ret _ (some err) => ⟨.ret none (some err), call.trace⟩
    | .ret none none => ⟨.panic .nilDereference, call.trace⟩
    | .ret (some resp) none =>
      -- defer resp.Body.Close(): runs when the function returns
      match env.decodeSearch resp.Body with
      | .error err =>
        ⟨.ret none (some err), call.trace ++ [.decode resp.Body, .close resp.Body]⟩
      | .ok r =>
        if r.Response = "False" then
          ⟨.ret (some r) (some (errors.New r.Error)),
            call.trace ++ [.decode resp.Body, .close resp.Body]⟩
        else
          ⟨.ret (some r) none, call.trace ++ [.decode resp.Body, .close resp.Body]⟩

/-- Lines 109-126. -/
def LookupByTitle (env : Env) (query : Option QueryData) : Run MovieResult :=
  match query with
  | none => ⟨.panic .nilDereference, []⟩
  | some q =>
    let call := requestAPI env "title" [q.Title, q.Year, q.SearchType]
    match call.outcome with
    | .panic p => ⟨.panic p, call.trace⟩
    | .ret _ (some err) => ⟨.ret none (some err), call.trace⟩
    | .ret none none => ⟨.panic .nilDereference, call.trace⟩
    | .ret (some resp) none =>
      match env.decodeMovie resp.Body with
      | .error err =>
        ⟨.ret none (some err), call.trace ++ [.decode resp.Body, .close resp.Body]⟩
      | .ok r =>
        if r.Response = "False" then
          ⟨.ret (some r) (some (errors.New r.Error)),
            call.trace ++ [.decode resp.Body, .close resp.Body]⟩
        else
          ⟨.ret (some r) none, call.trace ++ [.decode resp.Body, .close resp.Body]⟩

/-- Lines 129-146. -/
def LookupByImdbID (env : Env) (id : String) : Run MovieResult :=
  let call := requestAPI env "id" [id]
  match call.outcome with
  | .panic p => ⟨.panic p, call.trace⟩
  | .ret _ (some err) => ⟨.ret none (some err), call.trace⟩
  | .ret none none => ⟨.panic .nilDereference, call.trace⟩
  | .ret (some resp) none =>
    match env.decodeMovie resp.Body with
    | .error err =>
      ⟨.ret none (some err), call.trace ++ [.decode resp.Body, .close resp.Body]⟩
    | .ok r =>
      if r.Response = "False" then
        ⟨.ret (some r) (some (errors.New r.Error)),
          call.trace ++ [.decode resp.Body, .close resp.Body]⟩
      else
        ⟨.ret (some r) none, call.trace ++ [.decode resp.Body, .close resp.Body]⟩

/-- Lines 204-206, the Stringer of `MovieResult`. -/
def MovieResult.String (mr : MovieResult) :=
  fmt.Sprintf "#%s: %s (%s)" [.str mr.ImdbID, .str mr.Title, .str mr.Year]

/-- Lines 209-211, the Stringer of `SearchResult`. -/
def SearchResult.String (sr : SearchResult) :=
  fmt.Sprintf "#%s: %s (%s) Type: %s"
    [.str sr.ImdbID, .str sr.Title, .str sr.Year, .str sr.Type_]

/-! ## Vocabulary of the statements -/

/-- The run invoked the transport, and the transport handed back the response `resp`. -/
def Received {α : Type} (env : Env) (run : Run α) (resp : http.Response) : Prop :=
  ∃ u, Event.get u ∈ run.trace ∧ (env.httpGet u).1 = some resp

/-- The run invoked the transport, and the GET failed at the transport level:
no response, and the error `e`. -/
def TransportFailed {α : Type} (env : Env) (run : Run α) (e : GoError) : Prop :=
  ∃ u, Event.get u ∈ run.trace ∧ env.httpGet u = (none, some e)

/-- A search kind that the category check lets through. -/
def validKind (k : String) : Prop :=
  k = "" ∨ k = MovieSearch ∨ k = SeriesSearch ∨ k = EpisodeSearch

/-- The text of the status error for code `n`. -/
def statusText (n : Int) : String :=
  "Status Code " ++ toString n ++ " received from IMDB"

/-- The parameter set the specification gives for a search:
`s=<term>&y=<year>&type=<kind>&page=<n>`. -/
def searchParameters (q : QueryData) : url.Values :=
  [("s", [q.Title]), ("y", [q.Year]), ("type", [q.SearchType]), ("page", [q.Page])]

/-- The parameter set the specification gives for a title lookup:
`t=<title>&y=<year>&type=<kind>&plot=full&tomatoes=true`. -/
def titleParameters (q : QueryData) : url.Values :=
  [("t", [q.Title]), ("y", [q.Year]), ("type", [q.SearchType]), ("plot", ["full"]),
    ("tomatoes", ["true"])]

/-- The parameter set the specification gives for an identifier lookup:
`i=<identifier>&plot=full&tomatoes=true`. -/
def idParameters (id : String) : url.Values :=
  [("i", [id]), ("plot", ["full"]), ("tomatoes", ["true"])]

/-- The course of an operation after the category check, as a function of what
the transport hands back (`got`): the behaviour the three operations are
shown to share. -/
def pipeline {α : Type} (flag : α → String) (message : α → String)
    (decode : ReadCloser → Except GoError α) (target : String)
    (got : Option http.Response) : Run α :=
  match got with
  | none => ⟨.panic .nilDereference, [.get target]⟩
  | some resp =>
    if resp.StatusCode = 200 then
      match decode resp.Body with
      | .error err =>
        ⟨.ret none (some err), [.get target, .decode resp.Body, .close resp.Body]⟩
      | .ok r =>
        if flag r = "False" then
          ⟨.ret (some r) (some (errors.New (message r))),
            [.get target, .decode resp.Body, .close resp.Body]⟩
        else ⟨.ret (some r) none, [.get target, .decode resp.Body, .close resp.Body]⟩
    else ⟨.ret none (some (errors.New (statusText resp.StatusCode))), [.get target]⟩

/-! ## Example collaborators and inputs -/

def rushQuery : QueryData :=
  { Title := "Rush", Year := "2013", ImdbId := "", SearchType := "movie", Page := "1" }

def gameQuery : QueryData :=
  { Title := "Rush", Year := "2013", ImdbId := "", SearchType := "game", Page := "1" }

def blankMovie : MovieResult :=
  { Title := "", Year := "", Rated := "", Released := "", Runtime := "", Genre := "",
    Director := "", Writer := "", Actors := "", Plot := "", Language := "", Country := "",
    Awards := "", Poster := "", Metascore := "", ImdbRating := "", ImdbVotes := "",
    ImdbID := "", Ratings := [], Type_ := "", DVD := "", BoxOffice := "", Production := "",
    Website := "", Response := "", Error := "" }

def someTitle : MovieResult :=
  { blankMovie with
    ImdbID := "tt2015381", Title := "Some Title", Year := "2010", Response := "True" }

def someTitleRated : MovieResult :=
  { someTitle with
    Rated := "PG-13", Ratings := [⟨"Internet Movie Database", "8.0/10"⟩] }

def movieNotFound : MovieResult :=
  { blankMovie with Response := "False", Error := "Movie not found!" }

def rushFound : SearchResponse :=
  { Search := [⟨"Rush", "2013", "tt2135158", "movie"⟩], Response := "True", Error := "",
    NumPages := "1" }

def searchNotFound : SearchResponse :=
  { Search := [], Response := "False", Error := "Movie not found!", NumPages := "" }

/-- A decoder that knows two bodies, `hit` and `miss`, and rejects every other one. -/
def exampleDecodeSearch (body : ReadCloser) : Except GoError SearchResponse :=
  if body.content = "hit" then .ok rushFound
  else if body.content = "miss" then .ok searchNotFound
  else .error (errors.New "invalid character")

/-- A decoder that knows two bodies, `hit` and `miss`, and rejects every other one. -/
def exampleDecodeMovie (body : ReadCloser) : Except GoError MovieResult :=
  if body.content = "hit" then .ok someTitle
  else if body.content = "miss" then .ok movieNotFound
  else .error (errors.New "invalid character")

/-- A transport that answers every GET with the given status and body. -/
def serverEnv (status : Int) (content : String) : Env :=
  { httpGet := fun _ => (some ⟨status, ⟨content⟩⟩, none),
    decodeSearch := exampleDecodeSearch,
    decodeMovie := exampleDecodeMovie }

/-- A transport on which every GET fails: no response, only an error. -/
def downEnv : Env :=
  { httpGet := fun _ => (none, some (errors.New "dial tcp: no such host")),
    decodeSearch := exampleDecodeSearch,
    decodeMovie := exampleDecodeMovie }

/-! # Theorems -/

/-! ## Formatting -/

theorem statusFormat_data :
    "Status Code %d received from IMDB".data =
      ['S','t','a','t','u','s',' ','C','o','d','e',' ','%','d',' ','r','e','c','e','i','v','e','d',' ','f','r','o','m',' ','I','M','D','B'] := by
  decide

theorem sprintf_status (n : Int) :
    fmt.Sprintf "Status Code %d received from IMDB" [.int n] = statusText n := by
  apply String.ext
  simp [fmt.Sprintf, statusFormat_data, fmt.sprintfAux, fmt.formatVerb, statusText]

theorem movieFormat_data :
    "#%s: %s (%s)".data = ['#', '%', 's', ':', ' ', '%', 's', ' ', '(', '%', 's', ')'] := by
  decide

theorem checkErr_eq (n : Int) :
    checkErr n = if n = 200 then none else some (errors.New (statusText n)) := by
  unfold checkErr fmt.Errorf
  rw [sprintf_status]
  split_ifs <;> simp_all

/-! ## The category check and the parameter switch at the three call sites -/

theorem checkCategory_four (a b c d : String) :
    checkCategory [a, b, c, d] =
      if c ≠ "" ∧ c ≠ MovieSearch ∧ c ≠ SeriesSearch ∧ c ≠ EpisodeSearch then
        .ok (some (errors.New ("Invalid search category- " ++ c)))
      else .ok none := by
  simp only [checkCategory]
  by_cases h : c = "" <;> simp [h]

theorem checkCategory_three (a b c : String) :
    checkCategory [a, b, c] =
      if c ≠ "" ∧ c ≠ MovieSearch ∧ c ≠ SeriesSearch ∧ c ≠ EpisodeSearch then
        .ok (some (errors.New ("Invalid search category- " ++ c)))
      else .ok none := by
  simp only [checkCategory]
  by_cases h : c = "" <;> simp [h]

theorem checkCategory_one (a : String) : checkCategory [a] = .ok none := by
  simp [checkCategory]

theorem buildParameters_search (q : QueryData) :
    buildParameters "search" [q.Title, q.Year, q.SearchType, q.Page] = .ok (searchParameters q) := by
  simp [buildParameters, url.Values.Add, searchParameters]

theorem buildParameters_title (q : QueryData) :
    buildParameters "title" [q.Title, q.Year, q.SearchType] = .ok (titleParameters q) := by
  simp [buildParameters, url.Values.Add, titleParameters, plot, tomatoes]

theorem buildParameters_id (id : String) :
    buildParameters "id" [id] = .ok (idParameters id) := by
  simp [buildParameters, url.Values.Add, idParameters, plot, tomatoes]

theorem invalid_iff_not_validKind (k : String) :
    (k ≠ "" ∧ k ≠ MovieSearch ∧ k ≠ SeriesSearch ∧ k ≠ EpisodeSearch) ↔ ¬ validKind k := by
  unfold validKind
  tauto

/-! ## requestAPI -/

/-- What `requestAPI` does once the category check has let the call through. -/
theorem requestAPI_pass (env : Env) (cat : String) (params : List String) (ps : url.Values)
    (hc : checkCategory params = .ok none) (hb : buildParameters cat params = .ok ps) :
    requestAPI env cat params =
      match (env.httpGet (requestTarget ps)).1 with
      | none => ⟨.panic .nilDereference, [.get (requestTarget ps)]⟩
      | some res =>
        if res.StatusCode = 200 then ⟨.ret (some res) none, [.get (requestTarget ps)]⟩
        else ⟨.ret none (some (errors.New (statusText res.StatusCode))),
          [.get (requestTarget ps)]⟩ := by
  simp only [requestAPI, hc, hb]
  cases hg : (env.httpGet (requestTarget ps)).1 with
  | none => rfl
  | some res =>
    simp only [checkErr_eq]
    by_cases h : res.StatusCode = 200 <;> simp [h]

theorem requestAPI_reject (env : Env) (cat : String) (params : List String) (e : GoError)
    (hc : checkCategory params = .ok (some e)) :
    requestAPI env cat params = ⟨.ret none (some e), []⟩ := by
  simp only [requestAPI, hc]

/-! ## The three operations -/

theorem Search_reject (env : Env) (q : QueryData) (hk : ¬ validKind q.SearchType) :
    Search env (some q) =
      ⟨.ret none (some (errors.New ("Invalid search category- " ++ q.SearchType))), []⟩ := by
  have hc := checkCategory_four q.Title q.Year q.SearchType q.Page
  rw [if_pos ((invalid_iff_not_validKind _).2 hk)] at hc
  simp only [Search, requestAPI_reject env _ _ _ hc]

theorem Search_pass (env : Env) (q : QueryData) (hk : validKind q.SearchType) :
    Search env (some q) =
      pipeline (fun r => r.Response) (fun r => r.Error) env.decodeSearch
        (requestTarget (searchParameters q))
        (env.httpGet (requestTarget (searchParameters q))).1 := by
  have hc := checkCategory_four q.Title q.Year q.SearchType q.Page
  rw [if_neg (fun h => (invalid_iff_not_validKind _).1 h hk)] at hc
  simp only [Search, requestAPI_pass env _ _ _ hc (buildParameters_search q), pipeline]
  cases hg : (env.httpGet (requestTarget (searchParameters q))).1 with
  | none => rfl
  | some res =>
    by_cases h : res.StatusCode = 200
    · simp only [h, if_true]
      cases hd : env.decodeSearch res.Body with
      | error err => simp
      | ok r => by_cases hf : r.Response = "False" <;> simp [hf]
    · simp [h]

theorem LookupByTitle_reject (env : Env) (q : QueryData) (hk : ¬ validKind q.SearchType) :
    LookupByTitle env (some q) =
      ⟨.ret none (some (errors.New ("Invalid search category- " ++ q.SearchType))), []⟩ := by
  have hc := checkCategory_three q.Title q.Year q.SearchType
  rw [if_pos ((invalid_iff_not_validKind _).2 hk)] at hc
  simp only [LookupByTitle, requestAPI_reject env _ _ _ hc]

theorem LookupByTitle_pass (env : Env) (q : QueryData) (hk : validKind q.SearchType) :
    LookupByTitle env (some q) =
      pipeline (fun r => r.Response) (fun r => r.Error) env.decodeMovie
        (requestTarget (titleParameters q))
        (env.httpGet (requestTarget (titleParameters q))).1 := by
  have hc := checkCategory_three q.Title q.Year q.SearchType
  rw [if_neg (fun h => (invalid_iff_not_validKind _).1 h hk)] at hc
  simp only [LookupByTitle, requestAPI_pass env _ _ _ hc (buildParameters_title q), pipeline]
  cases hg : (env.httpGet (requestTarget (titleParameters q))).1 with
  | none => rfl
  | some res =>
    by_cases h : res.StatusCode = 200
    · simp only [h, if_true]
      cases hd : env.decodeMovie res.Body with
      | error err => simp
      | ok r => by_cases hf : r.Response = "False" <;> simp [hf]
    · simp [h]

theorem LookupByImdbID_eq (env : Env) (id : String) :
    LookupByImdbID env id =
      pipeline (fun r => r.Response) (fun r => r.Error) env.decodeMovie
        (requestTarget (idParameters id))
        (env.httpGet (requestTarget (idParameters id))).1 := by
  simp only [LookupByImdbID,
    requestAPI_pass env _ _ _ (checkCategory_one id) (buildParameters_id id), pipeline]
  cases hg : (env.httpGet (requestTarget (idParameters id))).1 with
  | none => rfl
  | some res =>
    by_cases h : res.StatusCode = 200
    · simp only [h, if_true]
      cases hd : env.decodeMovie res.Body with
      | error err => simp
      | ok r => by_cases hf : r.Response = "False" <;> simp [hf]
    · simp [h]

/-! ## The trace of the shared course -/

theorem pipeline_get_mem {α : Type} (flag message : α → String)
    (decode : ReadCloser → Except GoError α) (target : String) (got : Option http.Response) :
    Event.get target ∈ (pipeline flag message decode target got).trace := by
  unfold pipeline
  cases got with
  | none => simp
  | some resp =>
    by_cases h : resp.StatusCode = 200
    · simp only [h, if_true]
      cases decode resp.Body with
      | error err => simp
      | ok r => by_cases hf : flag r = "False" <;> simp [hf]
    · simp [h]

theorem pipeline_get_eq {α : Type} (flag message : α → String)
    (decode : ReadCloser → Except GoError α) (target u : String) (got : Option http.Response)
    (hu : Event.get u ∈ (pipeline flag message decode target got).trace) : u = target := by
  unfold pipeline at hu
  cases got with
  | none => simpa using hu
  | some resp =>
    by_cases h : resp.StatusCode = 200
    · simp only [h, if_true] at hu
      cases hd : decode resp.Body with
      | error err => simpa [hd] using hu
      | ok r => by_cases hf : flag r = "False" <;> simpa [hd, hf] using hu
    · simpa [h] using hu

/-! ## The operations, seen from what the transport handed back -/

theorem Search_get_iff (env : Env) (q : QueryData) :
    validKind q.SearchType ↔ ∃ u, Event.get u ∈ (Search env (some q)).trace := by
  constructor
  · intro hk
    exact ⟨_, by rw [Search_pass env q hk]; exact pipeline_get_mem _ _ _ _ _⟩
  · rintro ⟨u, hu⟩
    by_contra hk
    rw [Search_reject env q hk] at hu
    simp at hu

theorem LookupByTitle_get_iff (env : Env) (q : QueryData) :
    validKind q.SearchType ↔ ∃ u, Event.get u ∈ (LookupByTitle env (some q)).trace := by
  constructor
  · intro hk
    exact ⟨_, by rw [LookupByTitle_pass env q hk]; exact pipeline_get_mem _ _ _ _ _⟩
  · rintro ⟨u, hu⟩
    by_contra hk
    rw [LookupByTitle_reject env q hk] at hu
    simp at hu

theorem Search_of_got (env : Env) (q : QueryData) (u : String) (got : Option http.Response)
    (hu : Event.get u ∈ (Search env (some q)).trace) (hg : (env.httpGet u).1 = got) :
    Search env (some q) =
      pipeline (fun r => r.Response) (fun r => r.Error) env.decodeSearch
        (requestTarget (searchParameters q)) got := by
  have hk : validKind q.SearchType := (Search_get_iff env q).2 ⟨u, hu⟩
  rw [Search_pass env q hk] at hu ⊢
  rw [← hg, pipeline_get_eq _ _ _ _ _ _ hu]

theorem LookupByTitle_of_got (env : Env) (q : QueryData) (u : String)
    (got : Option http.Response)
    (hu : Event.get u ∈ (LookupByTitle env (some q)).trace) (hg : (env.httpGet u).1 = got) :
    LookupByTitle env (some q) =
      pipeline (fun r => r.Response) (fun r => r.Error) env.decodeMovie
        (requestTarget (titleParameters q)) got := by
  have hk : validKind q.SearchType := (LookupByTitle_get_iff env q).2 ⟨u, hu⟩
  rw [LookupByTitle_pass env q hk] at hu ⊢
  rw [← hg, pipeline_get_eq _ _ _ _ _ _ hu]

theorem LookupByImdbID_of_got (env : Env) (id : String) (u : String)
    (got : Option http.Response)
    (hu : Event.get u ∈ (LookupByImdbID env id).trace) (hg : (env.httpGet u).1 = got) :
    LookupByImdbID env id =
      pipeline (fun r => r.Response) (fun r => r.Error) env.decodeMovie
        (requestTarget (idParameters id)) got := by
  rw [LookupByImdbID_eq env id] at hu ⊢
  rw [← hg, pipeline_get_eq _ _ _ _ _ _ hu]

/-! ## C1: invalid search kind -/

/-- C1. For every QueryData whose SearchType is non-empty and is none of
"movie", "series", "episode", both Search and LookupByTitle return a nil
result with the error "Invalid search category- " followed by the SearchType,
and perform no effect at all: the trace is empty, so no HTTP GET is issued. -/
theorem invalid_category_rejected (env : Env) (q : QueryData)
    (hne : q.SearchType ≠ "") (hm : q.SearchType ≠ "movie")
    (hs : q.SearchType ≠ "series") (he : q.SearchType ≠ "episode") :
    (Search env (some q)).outcome =
        .ret none (some (errors.New ("Invalid search category- " ++ q.SearchType))) ∧
      (Search env (some q)).trace = [] ∧
      (LookupByTitle env (some q)).outcome =
        .ret none (some (errors.New ("Invalid search category- " ++ q.SearchType))) ∧
      (LookupByTitle env (some q)).trace = [] := by
  have hk : ¬ validKind q.SearchType := by
    rintro (h | h | h | h)
    · exact hne h
    · exact hm h
    · exact hs h
    · exact he h
  rw [Search_reject env q hk, LookupByTitle_reject env q hk]
  exact ⟨rfl, rfl, rfl, rfl⟩

theorem invalid_category_rejected_witness :
    (gameQuery.SearchType ≠ "" ∧ gameQuery.SearchType ≠ "movie" ∧
      gameQuery.SearchType ≠ "series" ∧ gameQuery.SearchType ≠ "episode") ∧
    (Search (serverEnv 200 "hit") (some gameQuery)).outcome =
        .ret none (some (errors.New "Invalid search category- game")) ∧
      (Search (serverEnv 200 "hit") (some gameQuery)).trace = [] ∧
      (LookupByTitle (serverEnv 200 "hit") (some gameQuery)).outcome =
        .ret none (some (errors.New "Invalid search category- game")) ∧
      (LookupByTitle (serverEnv 200 "hit") (some gameQuery)).trace = [] :=
  ⟨by decide,
    invalid_category_rejected (serverEnv 200 "hit") gameQuery (by decide) (by decide)
      (by decide) (by decide)⟩

/-! ## C2: a status other than 200 -/

/-- C2. `checkErr` returns the nil error exactly for status 200. For each of
Search, LookupByTitle and LookupByImdbID: the transport is invoked exactly
when the search kind is valid or empty (always, for LookupByImdbID), and when
the transport hands back a response whose status code n is not 200 the
operation returns a nil result with the error "Status Code n received from
IMDB", and no body is decoded. -/
theorem status_failure (env : Env) (q : QueryData) (id : String) (resp : http.Response)
    (hn : resp.StatusCode ≠ 200) :
    (∀ n : Int, checkErr n = none ↔ n = 200) ∧
    (validKind q.SearchType ↔ ∃ u, Event.get u ∈ (Search env (some q)).trace) ∧
    (Received env (Search env (some q)) resp →
      (Search env (some q)).outcome =
          .ret none (some (errors.New
            ("Status Code " ++ toString resp.StatusCode ++ " received from IMDB"))) ∧
        ∀ b, Event.decode b ∉ (Search env (some q)).trace) ∧
    (validKind q.SearchType ↔ ∃ u, Event.get u ∈ (LookupByTitle env (some q)).trace) ∧
    (Received env (LookupByTitle env (some q)) resp →
      (LookupByTitle env (some q)).outcome =
          .ret none (some (errors.New
            ("Status Code " ++ toString resp.StatusCode ++ " received from IMDB"))) ∧
        ∀ b, Event.decode b ∉ (LookupByTitle env (some q)).trace) ∧
    (∃ u, Event.get u ∈ (LookupByImdbID env id).trace) ∧
    (Received env (LookupByImdbID env id) resp →
      (LookupByImdbID env id).outcome =
          .ret none (some (errors.New
            ("Status Code " ++ toString resp.StatusCode ++ " received from IMDB"))) ∧
        ∀ b, Event.decode b ∉ (LookupByImdbID env id).trace) := by
  refine ⟨?_, Search_get_iff env q, ?_, LookupByTitle_get_iff env q, ?_, ?_, ?_⟩
  · intro n
    rw [checkErr_eq]
    by_cases h : n = 200 <;> simp [h]
  · rintro ⟨u, hu, hg⟩
    rw [Search_of_got env q u _ hu hg]
    simp [pipeline, hn, statusText]
  · rintro ⟨u, hu, hg⟩
    rw [LookupByTitle_of_got env q u _ hu hg]
    simp [pipeline, hn, statusText]
  · exact ⟨_, by rw [LookupByImdbID_eq]; exact pipeline_get_mem _ _ _ _ _⟩
  · rintro ⟨u, hu, hg⟩
    rw [LookupByImdbID_of_got env id u _ hu hg]
    simp [pipeline, hn, statusText]

theorem status_failure_witness :
    (⟨404, ⟨"Not Found"⟩⟩ : http.Response).StatusCode ≠ 200 ∧
    Received (serverEnv 404 "Not Found")
      (LookupByTitle (serverEnv 404 "Not Found") (some rushQuery)) ⟨404, ⟨"Not Found"⟩⟩ ∧
    (LookupByTitle (serverEnv 404 "Not Found") (some rushQuery)).outcome =
      .ret none (some (errors.New "Status Code 404 received from IMDB")) ∧
    ∀ b, Event.decode b ∉ (LookupByTitle (serverEnv 404 "Not Found") (some rushQuery)).trace :=
  have hr : Received (serverEnv 404 "Not Found")
      (LookupByTitle (serverEnv 404 "Not Found") (some rushQuery)) ⟨404, ⟨"Not Found"⟩⟩ :=
    ⟨requestTarget (titleParameters rushQuery), by decide, rfl⟩
  ⟨by decide, hr,
    (status_failure (serverEnv 404 "Not Found") rushQuery "tt2015381" ⟨404, ⟨"Not Found"⟩⟩
      (by decide)).2.2.2.2.1 hr⟩

/-! ## C3: a GET that fails at the transport level -/

/-- C3 (what the code does). When the transport is invoked and hands back no
response and an error `e`, each of Search, LookupByTitle and LookupByImdbID
ends in a nil-dereference panic (`res.StatusCode` is read on the nil
response): it does not return, and `e` is not propagated. No body is decoded
or closed. -/
theorem transport_failure_panics (env : Env) (q : QueryData) (id : String) (e : GoError) :
    (TransportFailed env (Search env (some q)) e →
      (Search env (some q)).outcome = .panic .nilDereference ∧
        (Search env (some q)).trace = [.get (requestTarget (searchParameters q))]) ∧
    (TransportFailed env (LookupByTitle env (some q)) e →
      (LookupByTitle env (some q)).outcome = .panic .nilDereference ∧
        (LookupByTitle env (some q)).trace = [.get (requestTarget (titleParameters q))]) ∧
    (TransportFailed env (LookupByImdbID env id) e →
      (LookupByImdbID env id).outcome = .panic .nilDereference ∧
        (LookupByImdbID env id).trace = [.get (requestTarget (idParameters id))]) := by
  refine ⟨?_, ?_, ?_⟩
  · rintro ⟨u, hu, hg⟩
    rw [Search_of_got env q u none hu (by rw [hg])]
    exact ⟨rfl, rfl⟩
  · rintro ⟨u, hu, hg⟩
    rw [LookupByTitle_of_got env q u none hu (by rw [hg])]
    exact ⟨rfl, rfl⟩
  · rintro ⟨u, hu, hg⟩
    rw [LookupByImdbID_of_got env id u none hu (by rw [hg])]
    exact ⟨rfl, rfl⟩

theorem transport_failure_panics_witness :
    TransportFailed downEnv (LookupByImdbID downEnv "tt2015381")
      (errors.New "dial tcp: no such host") ∧
    (LookupByImdbID downEnv "tt2015381").outcome = .panic .nilDereference ∧
    (LookupByImdbID downEnv "tt2015381").trace =
      [.get "http://www.omdbapi.com//?i=tt2015381&plot=full&tomatoes=true"] :=
  have hf : TransportFailed downEnv (LookupByImdbID downEnv "tt2015381")
      (errors.New "dial tcp: no such host") :=
    ⟨requestTarget (idParameters "tt2015381"), by decide, rfl⟩
  ⟨hf, (transport_failure_panics downEnv rushQuery "tt2015381"
    (errors.New "dial tcp: no such host")).2.2 hf⟩

/-! ## C4: status 200, the decoded flag is "False" -/

/-- C4. For each of Search, LookupByTitle and LookupByImdbID: when the transport
hands back a response with status 200 whose body decodes to `r` with
`r.Response = "False"`, the operation returns `r` itself together with a
non-nil error whose text is `r.Error`. -/
theorem application_failure (env : Env) (q : QueryData) (id : String) (resp : http.Response)
    (h200 : resp.StatusCode = 200) :
    (∀ r, Received env (Search env (some q)) resp → env.decodeSearch resp.Body = .ok r →
      r.Response = "False" →
      (Search env (some q)).outcome = .ret (some r) (some (errors.New r.Error))) ∧
    (∀ r, Received env (LookupByTitle env (some q)) resp → env.decodeMovie resp.Body = .ok r →
      r.Response = "False" →
      (LookupByTitle env (some q)).outcome = .ret (some r) (some (errors.New r.Error))) ∧
    (∀ r, Received env (LookupByImdbID env id) resp → env.decodeMovie resp.Body = .ok r →
      r.Response = "False" →
      (LookupByImdbID env id).outcome = .ret (some r) (some (errors.New r.Error))) := by
  refine ⟨?_, ?_, ?_⟩
  · rintro r ⟨u, hu, hg⟩ hd hf
    rw [Search_of_got env q u _ hu hg]
    simp [pipeline, h200, hd, hf]
  · rintro r ⟨u, hu, hg⟩ hd hf
    rw [LookupByTitle_of_got env q u _ hu hg]
    simp [pipeline, h200, hd, hf]
  · rintro r ⟨u, hu, hg⟩ hd hf
    rw [LookupByImdbID_of_got env id u _ hu hg]
    simp [pipeline, h200, hd, hf]

theorem application_failure_witness :
    (⟨200, ⟨"miss"⟩⟩ : http.Response).StatusCode = 200 ∧
    Received (serverEnv 200 "miss") (LookupByImdbID (serverEnv 200 "miss") "tt0000000")
      ⟨200, ⟨"miss"⟩⟩ ∧
    (serverEnv 200 "miss").decodeMovie ⟨"miss"⟩ = .ok movieNotFound ∧
    movieNotFound.Response = "False" ∧
    (LookupByImdbID (serverEnv 200 "miss") "tt0000000").outcome =
      .ret (some movieNotFound) (some (errors.New "Movie not found!")) :=
  have hr : Received (serverEnv 200 "miss") (LookupByImdbID (serverEnv 200 "miss") "tt0000000")
      ⟨200, ⟨"miss"⟩⟩ :=
    ⟨requestTarget (idParameters "tt0000000"), by decide, rfl⟩
  ⟨rfl, hr, rfl, rfl,
    (application_failure (serverEnv 200 "miss") rushQuery "tt0000000" ⟨200, ⟨"miss"⟩⟩ rfl).2.2
      movieNotFound hr rfl rfl⟩

/-! ## C5: status 200, the decoded flag is not "False" -/

/-- C5. For each of Search, LookupByTitle and LookupByImdbID: when the transport
hands back a response with status 200 whose body decodes to `r` with
`r.Response` different from the exact string "False" ("True", empty, or
anything else), the operation returns exactly `r` with a nil error; for
Search the returned list is therefore the decoded list, same items in the
same order. -/
theorem success_returns_decoded (env : Env) (q : QueryData) (id : String)
    (resp : http.Response) (h200 : resp.StatusCode = 200) :
    (∀ r, Received env (Search env (some q)) resp → env.decodeSearch resp.Body = .ok r →
      r.Response ≠ "False" →
      (Search env (some q)).outcome = .ret (some r) none ∧
        ∀ r', (Search env (some q)).outcome = .ret (some r') none → r'.Search = r.Search) ∧
    (∀ r, Received env (LookupByTitle env (some q)) resp → env.decodeMovie resp.Body = .ok r →
      r.Response ≠ "False" →
      (LookupByTitle env (some q)).outcome = .ret (some r) none) ∧
    (∀ r, Received env (LookupByImdbID env id) resp → env.decodeMovie resp.Body = .ok r →
      r.Response ≠ "False" →
      (LookupByImdbID env id).outcome = .ret (some r) none) := by
  refine ⟨?_, ?_, ?_⟩
  · rintro r ⟨u, hu, hg⟩ hd hf
    rw [Search_of_got env q u _ hu hg]
    simp only [pipeline, h200, hd, hf, if_true, if_false, true_and]
    intro r' h
    injection h with h1 h2
    injection h1 with h1
    rw [h1]
  · rintro r ⟨u, hu, hg⟩ hd hf
    rw [LookupByTitle_of_got env q u _ hu hg]
    simp [pipeline, h200, hd, hf]
  · rintro r ⟨u, hu, hg⟩ hd hf
    rw [LookupByImdbID_of_got env id u _ hu hg]
    simp [pipeline, h200, hd, hf]

theorem success_returns_decoded_witness :
    (⟨200, ⟨"hit"⟩⟩ : http.Response).StatusCode = 200 ∧
    Received (serverEnv 200 "hit") (Search (serverEnv 200 "hit") (some rushQuery))
      ⟨200, ⟨"hit"⟩⟩ ∧
    (serverEnv 200 "hit").decodeSearch ⟨"hit"⟩ = .ok rushFound ∧
    rushFound.Response ≠ "False" ∧
    (Search (serverEnv 200 "hit") (some rushQuery)).outcome = .ret (some rushFound) none :=
  have hr : Received (serverEnv 200 "hit") (Search (serverEnv 200 "hit") (some rushQuery))
      ⟨200, ⟨"hit"⟩⟩ :=
    ⟨requestTarget (searchParameters rushQuery), by decide, rfl⟩
  ⟨rfl, hr, rfl, by decide,
    ((success_returns_decoded (serverEnv 200 "hit") rushQuery "tt2015381" ⟨200, ⟨"hit"⟩⟩ rfl).1
      rushFound hr rfl (by decide)).1⟩

/-! ## C6: status 200, the body does not decode -/

/-- C6. For each of Search, LookupByTitle and LookupByImdbID: when the transport
hands back a response with status 200 and decoding its body fails with error
`e`, the operation returns a nil result together with `e`. -/
theorem decode_failure (env : Env) (q : QueryData) (id : String) (resp : http.Response)
    (h200 : resp.StatusCode = 200) :
    (∀ e, Received env (Search env (some q)) resp → env.decodeSearch resp.Body = .error e →
      (Search env (some q)).outcome = .ret none (some e)) ∧
    (∀ e, Received env (LookupByTitle env (some q)) resp →
      env.decodeMovie resp.Body = .error e →
      (LookupByTitle env (some q)).outcome = .ret none (some e)) ∧
    (∀ e, Received env (LookupByImdbID env id) resp → env.decodeMovie resp.Body = .error e →
      (LookupByImdbID env id).outcome = .ret none (some e)) := by
  refine ⟨?_, ?_, ?_⟩
  · rintro e ⟨u, hu, hg⟩ hd
    rw [Search_of_got env q u _ hu hg]
    simp [pipeline, h200, hd]
  · rintro e ⟨u, hu, hg⟩ hd
    rw [LookupByTitle_of_got env q u _ hu hg]
    simp [pipeline, h200, hd]
  · rintro e ⟨u, hu, hg⟩ hd
    rw [LookupByImdbID_of_got env id u _ hu hg]
    simp [pipeline, h200, hd]

theorem decode_failure_witness :
    (⟨200, ⟨"<html>"⟩⟩ : http.Response).StatusCode = 200 ∧
    Received (serverEnv 200 "<html>") (LookupByTitle (serverEnv 200 "<html>") (some rushQuery))
      ⟨200, ⟨"<html>"⟩⟩ ∧
    (serverEnv 200 "<html>").decodeMovie ⟨"<html>"⟩ = .error (errors.New "invalid character") ∧
    (LookupByTitle (serverEnv 200 "<html>") (some rushQuery)).outcome =
      .ret none (some (errors.New "invalid character")) :=
  have hr : Received (serverEnv 200 "<html>")
      (LookupByTitle (serverEnv 200 "<html>") (some rushQuery)) ⟨200, ⟨"<html>"⟩⟩ :=
    ⟨requestTarget (titleParameters rushQuery), by decide, rfl⟩
  ⟨rfl, hr, rfl,
    (decode_failure (serverEnv 200 "<html>") rushQuery "tt2015381" ⟨200, ⟨"<html>"⟩⟩ rfl).2.1
      (errors.New "invalid character") hr rfl⟩

/-! ## C7: the query parameters of each operation -/

/-- C7. The `switch` of `requestAPI` builds, from the arguments each operation
passes, exactly: for Search `s=Title, y=Year, type=SearchType, page=Page` (no
`plot`, no `tomatoes`); for LookupByTitle `t=Title, y=Year, type=SearchType,
plot=full, tomatoes=true`; for LookupByImdbID `i=id, plot=full,
tomatoes=true`; each key once, each caller value unchanged. Whenever the
category check lets the call through, the one GET that `requestAPI` issues is
for the target built from exactly that parameter set. -/
theorem query_parameters (env : Env) (q : QueryData) (id : String) :
    buildParameters "search" [q.Title, q.Year, q.SearchType, q.Page] =
      .ok [("s", [q.Title]), ("y", [q.Year]), ("type", [q.SearchType]), ("page", [q.Page])] ∧
    buildParameters "title" [q.Title, q.Year, q.SearchType] =
      .ok [("t", [q.Title]), ("y", [q.Year]), ("type", [q.SearchType]), ("plot", ["full"]),
        ("tomatoes", ["true"])] ∧
    buildParameters "id" [id] = .ok [("i", [id]), ("plot", ["full"]), ("tomatoes", ["true"])] ∧
    (checkCategory [q.Title, q.Year, q.SearchType, q.Page] = .ok none →
      (requestAPI env "search" [q.Title, q.Year, q.SearchType, q.Page]).trace =
        [.get (requestTarget
          [("s", [q.Title]), ("y", [q.Year]), ("type", [q.SearchType]), ("page", [q.Page])])]) ∧
    (checkCategory [q.Title, q.Year, q.SearchType] = .ok none →
      (requestAPI env "title" [q.Title, q.Year, q.SearchType]).trace =
        [.get (requestTarget
          [("t", [q.Title]), ("y", [q.Year]), ("type", [q.SearchType]), ("plot", ["full"]),
            ("tomatoes", ["true"])])]) ∧
    (requestAPI env "id" [id]).trace =
      [.get (requestTarget [("i", [id]), ("plot", ["full"]), ("tomatoes", ["true"])])] := by
  have key : ∀ (cat : String) (params : List String) (ps : url.Values),
      checkCategory params = .ok none → buildParameters cat params = .ok ps →
      (requestAPI env cat params).trace = [.get (requestTarget ps)] := by
    intro cat params ps hc hb
    rw [requestAPI_pass env cat params ps hc hb]
    cases (env.httpGet (requestTarget ps)).1 with
    | none => rfl
    | some res => by_cases h : res.StatusCode = 200 <;> simp [h]
  exact ⟨buildParameters_search q, buildParameters_title q, buildParameters_id id,
    fun hc => key _ _ _ hc (buildParameters_search q),
    fun hc => key _ _ _ hc (buildParameters_title q),
    key _ _ _ (checkCategory_one id) (buildParameters_id id)⟩

theorem query_parameters_witness :
    checkCategory [rushQuery.Title, rushQuery.Year, rushQuery.SearchType, rushQuery.Page] =
      .ok none ∧
    (requestAPI downEnv "search"
        [rushQuery.Title, rushQuery.Year, rushQuery.SearchType, rushQuery.Page]).trace =
      [.get (requestTarget [("s", ["Rush"]), ("y", ["2013"]), ("type", ["movie"]),
        ("page", ["1"])])] :=
  ⟨rfl, (query_parameters downEnv rushQuery "tt2015381").2.2.2.1 rfl⟩

/-! ## C8: the Stringer of MovieResult -/

/-- C8. For every MovieResult `mr`, `mr.String()` is "#" ++ ImdbID ++ ": " ++
Title ++ " (" ++ Year ++ ")"; two results that agree on these three fields
render the same, whatever their other fields; and ImdbID "tt2015381", Title
"Some Title", Year "2010" renders as "#tt2015381: Some Title (2010)". -/
theorem movieResult_string (mr mr' : MovieResult) :
    mr.String = "#" ++ mr.ImdbID ++ ": " ++ mr.Title ++ " (" ++ mr.Year ++ ")" ∧
    (mr.ImdbID = mr'.ImdbID → mr.Title = mr'.Title → mr.Year = mr'.Year →
      mr.String = mr'.String) ∧
    someTitle.String = "#tt2015381: Some Title (2010)" := by
  have h : ∀ m : MovieResult,
      m.String = "#" ++ m.ImdbID ++ ": " ++ m.Title ++ " (" ++ m.Year ++ ")" := by
    intro m
    apply String.ext
    simp [MovieResult.String, fmt.Sprintf, movieFormat_data, fmt.sprintfAux, fmt.formatVerb]
  refine ⟨h mr, ?_, by decide⟩
  intro h1 h2 h3
  rw [h mr, h mr', h1, h2, h3]

theorem movieResult_string_witness :
    (someTitle.ImdbID = someTitleRated.ImdbID ∧ someTitle.Title = someTitleRated.Title ∧
      someTitle.Year = someTitleRated.Year) ∧
    someTitle.Rated ≠ someTitleRated.Rated ∧
    someTitle.String = someTitleRated.String :=
  ⟨⟨rfl, rfl, rfl⟩, by decide,
    (movieResult_string someTitle someTitleRated).2.1 rfl rfl rfl⟩

/-! ## C9: closing the response body -/

/-- C9 (what the code does). For each of Search, LookupByTitle and
LookupByImdbID, when the transport hands back a response: if its status is 200
the body is closed, after the decode, on every path (success, decode failure,
application failure); if its status is not 200 the operation returns without
any close: the trace is the GET alone. -/
theorem body_close_by_status (env : Env) (q : QueryData) (id : String)
    (resp : http.Response) :
    (Received env (Search env (some q)) resp →
      (resp.StatusCode = 200 →
        (Search env (some q)).trace.getLast? = some (.close resp.Body)) ∧
      (resp.StatusCode ≠ 200 → ∀ b, Event.close b ∉ (Search env (some q)).trace)) ∧
    (Received env (LookupByTitle env (some q)) resp →
      (resp.StatusCode = 200 →
        (LookupByTitle env (some q)).trace.getLast? = some (.close resp.Body)) ∧
      (resp.StatusCode ≠ 200 → ∀ b, Event.close b ∉ (LookupByTitle env (some q)).trace)) ∧
    (Received env (LookupByImdbID env id) resp →
      (resp.StatusCode = 200 →
        (LookupByImdbID env id).trace.getLast? = some (.close resp.Body)) ∧
      (resp.StatusCode ≠ 200 → ∀ b, Event.close b ∉ (LookupByImdbID env id).trace)) := by
  have key : ∀ {α : Type} (flag message : α → String)
      (decode : ReadCloser → Except GoError α) (target : String),
      (resp.StatusCode = 200 →
        (pipeline flag message decode target (some resp)).trace.getLast? =
          some (.close resp.Body)) ∧
      (resp.StatusCode ≠ 200 →
        ∀ b, Event.close b ∉ (pipeline flag message decode target (some resp)).trace) := by
    intro α flag message decode target
    constructor
    · intro h
      simp only [pipeline, h, if_true]
      cases decode resp.Body with
      | error err => simp
      | ok r => by_cases hf : flag r = "False" <;> simp [hf]
    · intro h b
      simp [pipeline, h]
  refine ⟨?_, ?_, ?_⟩
  · rintro ⟨u, hu, hg⟩
    rw [Search_of_got env q u _ hu hg]
    exact key _ _ _ _
  · rintro ⟨u, hu, hg⟩
    rw [LookupByTitle_of_got env q u _ hu hg]
    exact key _ _ _ _
  · rintro ⟨u, hu, hg⟩
    rw [LookupByImdbID_of_got env id u _ hu hg]
    exact key _ _ _ _

theorem body_close_by_status_witness :
    Received (serverEnv 404 "Not Found")
      (LookupByTitle (serverEnv 404 "Not Found") (some rushQuery)) ⟨404, ⟨"Not Found"⟩⟩ ∧
    (⟨404, ⟨"Not Found"⟩⟩ : http.Response).StatusCode ≠ 200 ∧
    Event.close ⟨"Not Found"⟩ ∉
      (LookupByTitle (serverEnv 404 "Not Found") (some rushQuery)).trace :=
  have hr : Received (serverEnv 404 "Not Found")
      (LookupByTitle (serverEnv 404 "Not Found") (some rushQuery)) ⟨404, ⟨"Not Found"⟩⟩ :=
    ⟨requestTarget (titleParameters rushQuery), by decide, rfl⟩
  ⟨hr, by decide,
    ((body_close_by_status (serverEnv 404 "Not Found") rushQuery "tt2015381"
      ⟨404, ⟨"Not Found"⟩⟩).2.1 hr).2 (by decide) ⟨"Not Found"⟩⟩

/-! ## C10: the variadic parameter list is never indexed out of range -/

/-- C10. With the 4, 3 and 1 arguments that Search, LookupByTitle and
LookupByImdbID pass, neither the category check nor the `switch` branch of
`requestAPI` indexes `params` out of range, so no operation ends in an
index-out-of-range panic. For LookupByImdbID the category check is skipped
(`len(params) > 1` is false, whatever the id is): the GET is always issued, and
`requestAPI` never returns the invalid-category error. -/
theorem params_in_bounds (env : Env) (q : QueryData) (id : String) :
    (∃ r, checkCategory [q.Title, q.Year, q.SearchType, q.Page] = .ok r) ∧
    (∃ ps, buildParameters "search" [q.Title, q.Year, q.SearchType, q.Page] = .ok ps) ∧
    (∃ r, checkCategory [q.Title, q.Year, q.SearchType] = .ok r) ∧
    (∃ ps, buildParameters "title" [q.Title, q.Year, q.SearchType] = .ok ps) ∧
    checkCategory [id] = .ok none ∧
    (∃ ps, buildParameters "id" [id] = .ok ps) ∧
    (Search env (some q)).outcome ≠ .panic .indexOutOfRange ∧
    (LookupByTitle env (some q)).outcome ≠ .panic .indexOutOfRange ∧
    (LookupByImdbID env id).outcome ≠ .panic .indexOutOfRange ∧
    (∃ u, (LookupByImdbID env id).trace.head? = some (.get u)) ∧
    (∀ v k, (requestAPI env "id" [id]).outcome ≠
      .ret v (some (errors.New ("Invalid search category- " ++ k)))) := by
  have hpipe : ∀ {α : Type} (flag message : α → String)
      (decode : ReadCloser → Except GoError α) (target : String) (got : Option http.Response),
      (pipeline flag message decode target got).outcome ≠ .panic .indexOutOfRange ∧
      (pipeline flag message decode target got).trace.head? = some (.get target) := by
    intro α flag message decode target got
    unfold pipeline
    cases got with
    | none => simp
    | some resp =>
      by_cases h : resp.StatusCode = 200
      · simp only [h, if_true]
        cases decode resp.Body with
        | error err => simp
        | ok r => by_cases hf : flag r = "False" <;> simp [hf]
      · simp [h]
  refine ⟨?_, ⟨_, buildParameters_search q⟩, ?_, ⟨_, buildParameters_title q⟩,
    checkCategory_one id, ⟨_, buildParameters_id id⟩, ?_, ?_, ?_, ?_, ?_⟩
  · rw [checkCategory_four]
    split_ifs <;> exact ⟨_, rfl⟩
  · rw [checkCategory_three]
    split_ifs <;> exact ⟨_, rfl⟩
  · by_cases hk : validKind q.SearchType
    · rw [Search_pass env q hk]
      exact (hpipe _ _ _ _ _).1
    · rw [Search_reject env q hk]
      simp
  · by_cases hk : validKind q.SearchType
    · rw [LookupByTitle_pass env q hk]
      exact (hpipe _ _ _ _ _).1
    · rw [LookupByTitle_reject env q hk]
      simp
  · rw [LookupByImdbID_eq]
    exact (hpipe _ _ _ _ _).1
  · rw [LookupByImdbID_eq]
    exact ⟨_, (hpipe _ _ _ _ _).2⟩
  · intro v k
    rw [requestAPI_pass env _ _ _ (checkCategory_one id) (buildParameters_id id)]
    cases (env.httpGet (requestTarget (idParameters id))).1 with
    | none => simp
    | some res =>
      by_cases h : res.StatusCode = 200
      · simp [h]
      · simp only [h, if_false]
        intro hc
        injection hc with _ hc
        injection hc with hc
        have hd := congrArg (fun e : GoError => e.text.data.head?) hc
        simp [errors.New, statusText] at hd

end Gomdb
